import Mathlib

/-!
Verification of the EAAS escrow backend (`EAAS/backend`): a shallow embedding of
the multi-signature contract engine (`routes/utils/contract_logic.py`,
`routes/utils/smart_contract.py`), the websocket room event handlers
(`routes/websockets/event_handler.py`, `routes/websockets/websocket.py`) and the
Redis occupancy manager (`routes/websockets/redis_manager.py`), together with
proofs about them.

Modelling conventions:
- Python `float` amounts and balances are modelled as exact integers (`Int`):
  the handlers only add, subtract and compare amounts, so the algebra is
  unchanged and every operation stays kernel-computable.
- Wall-clock instants (`datetime.now()` / ISO timestamps) are modelled as `Nat`
  seconds and passed explicitly to each operation that reads the clock.
- RSA-PSS signatures are modelled symbolically: key pairs are indexed by `Nat`,
  `sign_message k m` yields the signature object `⟨k, m⟩`, and verification
  succeeds exactly when the signature was produced with the private key matching
  the given public key over exactly the given message.  A nullable public-key
  column is `Option Nat`; `none` (a missing key) verifies nothing.
- Python dicts mutated in place become functional updates; a function that can
  `raise` returns `Except`/a result constructor carrying the error, and the
  state it leaves persisted.
-/

namespace EAAS

/-- `Party` enum of `smart_contract.py`. -/
inductive Party
  | BUYER
  | SELLER
  | AI_ORACLE
deriving DecidableEq

/-- `Decision` enum of `smart_contract.py`. -/
inductive Decision
  | RELEASE_TO_SELLER
  | REFUND_TO_BUYER
deriving DecidableEq

/-- Contract `status` field: `"ACTIVE"` or `"COMPLETED"`. -/
inductive CStatus
  | ACTIVE
  | COMPLETED
deriving DecidableEq

/-- Symbolic RSA-PSS signature: the private-key index it was produced with and
the exact message that was signed (`CryptoUtils.sign_message`). -/
structure Sig where
  signerKey : Nat
  signedMsg : String
deriving DecidableEq

/-- A nullable public-key column (PEM string in the source, `None` allowed by
the DB schema). -/
abbrev PubKey := Option Nat

/-- `CryptoUtils.sign_message`: produce a signature over `message` with the
private key `privateKey`. -/
def sign_message (privateKey : Nat) (message : String) : Sig :=
  ⟨privateKey, message⟩

/-- `CryptoUtils.verify_signature`: in the symbolic model a signature verifies
under a public key iff it was produced with the matching private key over
exactly this message.  A missing key (`none`) verifies nothing. -/
def verify_signature (message : String) (sig : Sig) (public_key : PubKey) : Bool :=
  public_key == some sig.signerKey && sig.signedMsg == message

/-- The value stored in a signature slot's `signature` field: a real signature
(hex string in the source) or the sentinel string `"TIMEOUT_IMPLICIT"` written
by `SecureSmartContract.check_timeout`.  Python `None` is `Option.none` one
level up. -/
inductive SigVal
  | real (s : Sig)
  | timeoutImplicit
deriving DecidableEq

/-- One party's signature record inside `contract["signatures"]`. -/
structure SigSlot where
  decision : Option Decision
  signature : Option SigVal
  verified : Bool
  signed_at : Option Nat := none
deriving DecidableEq

/-- The empty record every slot starts with in `create_contract`. -/
def emptySlot : SigSlot := ⟨none, none, false, none⟩

/-- A mapping from the three parties to values (the shape of the
`public_keys` and `signatures` dicts). -/
structure PartyMap (α : Type) where
  buyer : α
  seller : α
  ai : α
deriving DecidableEq

/-- Dict lookup by party. -/
def PartyMap.get {α : Type} (m : PartyMap α) : Party → α
  | .BUYER => m.buyer
  | .SELLER => m.seller
  | .AI_ORACLE => m.ai

/-- Dict update by party. -/
def PartyMap.set {α : Type} (m : PartyMap α) : Party → α → PartyMap α
  | .BUYER, v => { m with buyer := v }
  | .SELLER, v => { m with seller := v }
  | .AI_ORACLE, v => { m with ai := v }

/-- The contract dictionary built by `contract_logic.create_contract` /
`SecureSmartContract.create_contract`.  `seller_signed` / `seller_decision` are
the two extra keys written by `handle_confirm_product_delivered`; they default
to the "absent" values. -/
structure Contract where
  contract_id : String
  buyer_id : String
  seller_id : String
  amount : Int
  public_keys : PartyMap PubKey
  status : CStatus
  signatures : PartyMap SigSlot
  created_at : Nat
  timeout_at : Nat
  timeout_expired : Bool := false
  released_to : Option String
  released_at : Option Nat
  seller_signed : Bool := false
  seller_decision : Option Decision := none
deriving DecidableEq

/-- `Party.value` string used when formatting the canonical message. -/
def partyStr : Party → String
  | .BUYER => "BUYER"
  | .SELLER => "SELLER"
  | .AI_ORACLE => "AI_ORACLE"

/-- `Decision.value` string used when formatting the canonical message. -/
def decisionStr : Decision → String
  | .RELEASE_TO_SELLER => "RELEASE_TO_SELLER"
  | .REFUND_TO_BUYER => "REFUND_TO_BUYER"

/-- How a nullable decision field prints inside a Python f-string
(`None` prints as `"None"`), used by `verify_all_signatures`. -/
def decisionFieldStr : Option Decision → String
  | some d => decisionStr d
  | none => "None"

/-- The canonical signed message of `contract_logic.sign` and
`SecureSmartContract.sign`: the contract id, the party name and the decision
name joined by colons. -/
def canonicalMessage (contract_id : String) (party : Party) (decision : Decision) : String :=
  contract_id ++ ":" ++ partyStr party ++ ":" ++ decisionStr decision

/-- `contract_logic.create_contract`: a fresh ACTIVE contract with the three
registered public keys, all signature slots empty, a 24-hour timeout and no
release recorded.  The generated id and the clock reading are passed in. -/
def create_contract (buyer_id seller_id : String) (amount : Int)
    (buyer_pk seller_pk ai_pk : PubKey) (contract_id : String) (now : Nat) : Contract :=
  { contract_id := contract_id
    buyer_id := buyer_id
    seller_id := seller_id
    amount := amount
    public_keys := ⟨buyer_pk, seller_pk, ai_pk⟩
    status := .ACTIVE
    signatures := ⟨emptySlot, emptySlot, emptySlot⟩
    created_at := now
    timeout_at := now + 86400
    released_to := none
    released_at := none }

/-- Whether a slot contributes to the tally of decision `d`
(`sig_data.get("verified") and sig_data.get("decision") == d` in
`_try_execute`). -/
def SigSlot.countsFor (slot : SigSlot) (d : Decision) : Bool :=
  slot.verified && slot.decision == some d

/-- The number of verified signature records carrying decision `d`, which
`_try_execute` accumulates in `decision_counts`. -/
def decisionCount (sigs : PartyMap SigSlot) (d : Decision) : Nat :=
  (if sigs.buyer.countsFor d then 1 else 0)
    + (if sigs.seller.countsFor d then 1 else 0)
    + (if sigs.ai.countsFor d then 1 else 0)

/-- `contract_logic._try_execute` / `SecureSmartContract._try_execute` (and its
`_execute_contract`): on an ACTIVE contract, if some decision holds ≥ 2
verified signatures the contract completes in its favour, releasing to the
seller on RELEASE_TO_SELLER and to the buyer on REFUND_TO_BUYER.  At most one
decision can reach 2 among the three slots, so checking RELEASE_TO_SELLER first
agrees with the source's insertion-order dict iteration. -/
def tryExecute (c : Contract) (now : Nat) : Contract :=
  if c.status ≠ .ACTIVE then c
  else if 2 ≤ decisionCount c.signatures .RELEASE_TO_SELLER then
    { c with status := .COMPLETED, released_to := some c.seller_id, released_at := some now }
  else if 2 ≤ decisionCount c.signatures .REFUND_TO_BUYER then
    { c with status := .COMPLETED, released_to := some c.buyer_id, released_at := some now }
  else c

/-- The two `ValueError`s `contract_logic.sign` can raise. -/
inductive SignError
  | ContractNotActive
  | InvalidSignature
deriving DecidableEq

/-- `contract_logic.sign` (= `SecureSmartContract.sign` up to storage format):
reject on an inactive contract; verify the signature against the canonical
message under the registered public key; on success record the verified slot
and run `_try_execute`.  The source mutates nothing before either raise. -/
def sign (c : Contract) (party : Party) (decision : Decision) (sig : Sig) (now : Nat) :
    Except SignError Contract :=
  if c.status ≠ .ACTIVE then .error .ContractNotActive
  else if verify_signature (canonicalMessage c.contract_id party decision) sig
      (c.public_keys.get party) = false then
    .error .InvalidSignature
  else
    .ok (tryExecute
      { c with signatures :=
          c.signatures.set party ⟨some decision, some (.real sig), true, some now⟩ } now)

/-- The contract dictionary as left in memory after a `sign` call that may
raise: unchanged on either error path (the source assigns the slot only after
verification succeeds). -/
def signState (c : Contract) (party : Party) (decision : Decision) (sig : Sig) (now : Nat) :
    Contract :=
  match sign c party decision sig now with
  | .ok c' => c'
  | .error _ => c

/-- `SecureSmartContract.check_timeout`: on an ACTIVE contract past its
deadline, mark the timeout expired, fill an unverified buyer slot with the
implicit RELEASE_TO_SELLER record carrying the `TIMEOUT_IMPLICIT` sentinel, and
re-run `_try_execute`. -/
def check_timeout (c : Contract) (now : Nat) : Contract :=
  if c.status ≠ .ACTIVE then c
  else if c.timeout_at ≤ now then
    tryExecute
      (if c.signatures.buyer.verified then { c with timeout_expired := true }
       else { c with
              timeout_expired := true
              signatures := c.signatures.set .BUYER
                ⟨some .RELEASE_TO_SELLER, some .timeoutImplicit, true, some now⟩ }) now
  else c

/-- The direct contract mutation in `handle_confirm_product_delivered`
(`room.contract["seller_signed"] = True`, `"seller_decision" = "RELEASE_TO_SELLER"`). -/
def setSellerFlags (c : Contract) : Contract :=
  { c with seller_signed := true, seller_decision := some .RELEASE_TO_SELLER }

/-- One row of the dict returned by `SecureSmartContract.verify_all_signatures`. -/
structure AuditResult where
  verified : Bool
  decision : Option Decision
  note : Option String
deriving DecidableEq

/-- The per-party body of `verify_all_signatures`: re-verify a real signature
against the canonical message; otherwise echo the stored `verified` flag with a
note saying whether the slot is the timeout sentinel or simply unsigned. -/
def auditSlot (contract_id : String) (pub : PubKey) (p : Party) (slot : SigSlot) : AuditResult :=
  match slot.signature with
  | some (.real s) =>
      { verified := verify_signature
          (contract_id ++ ":" ++ partyStr p ++ ":" ++ decisionFieldStr slot.decision) s pub
        decision := slot.decision
        note := none }
  | some .timeoutImplicit =>
      { verified := slot.verified, decision := slot.decision, note := some "Timeout implicit" }
  | none =>
      { verified := slot.verified, decision := slot.decision, note := some "Not signed" }

/-- `SecureSmartContract.verify_all_signatures`: the audit dict over all three
parties. -/
def verify_all_signatures (c : Contract) : PartyMap AuditResult :=
  ⟨auditSlot c.contract_id c.public_keys.buyer .BUYER c.signatures.buyer,
   auditSlot c.contract_id c.public_keys.seller .SELLER c.signatures.seller,
   auditSlot c.contract_id c.public_keys.ai .AI_ORACLE c.signatures.ai⟩

/-- One mutation step a stored contract can undergo anywhere in the backend: a
successful `sign`, a `check_timeout`, or the flag write in
`handle_confirm_product_delivered`. -/
inductive CStep : Contract → Contract → Prop
  | signed (c : Contract) (p : Party) (d : Decision) (sg : Sig) (now : Nat) (c' : Contract) :
      sign c p d sg now = .ok c' → CStep c c'
  | timeout (c : Contract) (now : Nat) : CStep c (check_timeout c now)
  | flags (c : Contract) : CStep c (setSellerFlags c)

/-- Contract states reachable from creation through the mutation steps. -/
inductive ReachableContract : Contract → Prop
  | create (buyer_id seller_id : String) (amount : Int)
      (bpk spk apk : PubKey) (contract_id : String) (now : Nat) :
      ReachableContract (create_contract buyer_id seller_id amount bpk spk apk contract_id now)
  | step {c c' : Contract} : ReachableContract c → CStep c c' → ReachableContract c'

/-- `Room.status` values driven by the event handlers. -/
inductive RoomStatus
  | WAITING_FOR_BUYER
  | AWAITING_DESCRIPTION
  | AWAITING_SELLER_APPROVAL
  | AWAITING_BUYER_APPROVAL
  | AWAITING_SELLER_READY
  | AWAITING_PAYMENT
  | MONEY_SECURED
  | PRODUCT_DELIVERED
  | DISPUTE
  | COMPLETE
deriving DecidableEq

/-- `Room.dispute_status` values. -/
inductive DisputeStatus
  | AWAITING_EVIDENCE
  | IN_REVIEW
  | RESOLVED
deriving DecidableEq

/-- The `decision` field of the AI verifier's verdict
(`handle_finalize_submission` compares it to `"APPROVE"`). -/
inductive AIDecision
  | APPROVE
  | REJECT
deriving DecidableEq

/-- The `Room` row of `database/models.py`, restricted to the columns the
event handlers read or write. -/
structure Room where
  room_phrase : String
  seller_id : String
  buyer_id : Option String
  amount : Int
  description : Option String
  status : RoomStatus
  buyer_public_key : Option Nat
  seller_public_key : Option Nat
  ai_public_key : Option Nat
  contract : Option Contract
  dispute_status : Option DisputeStatus
  required_evidence : List String
  ai_verdict : Option AIDecision
deriving DecidableEq

/-- The `Wallet` row: available balance and locked balance. -/
structure Wallet where
  balance : Int
  locked : Int
deriving DecidableEq

/-- The wallets table, keyed by `user_id`. -/
abbrev WalletDB := List (String × Wallet)

/-- `db.query(Wallet).filter_by(user_id=uid).first()`. -/
def getWallet : WalletDB → String → Option Wallet
  | [], _ => none
  | (k, w) :: t, uid => if k = uid then some w else getWallet t uid

/-- Mutating the ORM row for `uid` in place (every row whose key matches is
updated; keys are unique in the table). -/
def updateWallet : WalletDB → String → (Wallet → Wallet) → WalletDB
  | [], _, _ => []
  | (k, w) :: t, uid, f =>
    if k = uid then (k, f w) :: updateWallet t uid f
    else (k, w) :: updateWallet t uid f

/-- The database state an event handler can read and mutate. -/
structure EState where
  room : Room
  wallets : WalletDB
deriving DecidableEq

/-- The exceptions the event handlers can raise. -/
inductive HError
  | walletNotFound
  | insufficientFunds
  | contractMissing
  | signFailed (e : SignError)
deriving DecidableEq

/-- Outcome of one event-handler call: a silent precondition return, an
exception propagated to the dispatcher (carrying the state as persisted by the
commits that ran before the raise), or a normal completion with the committed
state. -/
inductive HResult
  | noop
  | raised (e : HError) (s : EState)
  | committed (s : EState)
deriving DecidableEq

/-- The database state persisted after a handler call that started from
`pre`: `noop` leaves `pre`; the other outcomes carry their persisted state. -/
def HResult.persisted (r : HResult) (pre : EState) : EState :=
  match r with
  | .noop => pre
  | .raised _ s => s
  | .committed s => s

/-- `handle_propose_description`: buyer only, from AWAITING_DESCRIPTION; a
non-empty stripped description is stored and the room moves to
AWAITING_SELLER_APPROVAL. -/
def handle_propose_description (s : EState) (uid : String) (desc : String) : HResult :=
  if ¬ (s.room.buyer_id = some uid ∧ s.room.status = .AWAITING_DESCRIPTION) then .noop
  else if desc.trim = "" then .noop
  else .committed { s with room :=
    { s.room with description := some desc.trim, status := .AWAITING_SELLER_APPROVAL } }

/-- `handle_approve_description`: the party named as approver by the current
status moves the room to AWAITING_SELLER_READY. -/
def handle_approve_description (s : EState) (uid : String) : HResult :=
  if ¬ ((s.room.seller_id = uid ∧ s.room.status = .AWAITING_SELLER_APPROVAL)
      ∨ (s.room.buyer_id = some uid ∧ s.room.status = .AWAITING_BUYER_APPROVAL)) then .noop
  else .committed { s with room := { s.room with status := .AWAITING_SELLER_READY } }

/-- `handle_edit_description`: the party whose turn it is stores a non-empty
stripped description and flips the turn. -/
def handle_edit_description (s : EState) (uid : String) (desc : String) : HResult :=
  if ¬ ((s.room.seller_id = uid ∧ s.room.status = .AWAITING_SELLER_APPROVAL)
      ∨ (s.room.buyer_id = some uid ∧ s.room.status = .AWAITING_BUYER_APPROVAL)) then .noop
  else if desc.trim = "" then .noop
  else if s.room.seller_id = uid ∧ s.room.status = .AWAITING_SELLER_APPROVAL then
    .committed { s with room :=
      { s.room with description := some desc.trim, status := .AWAITING_BUYER_APPROVAL } }
  else
    .committed { s with room :=
      { s.room with description := some desc.trim, status := .AWAITING_SELLER_APPROVAL } }

/-- `handle_confirm_seller_ready`: seller only, from AWAITING_SELLER_READY;
moves to AWAITING_PAYMENT. -/
def handle_confirm_seller_ready (s : EState) (uid : String) : HResult :=
  if ¬ (s.room.seller_id = uid ∧ s.room.status = .AWAITING_SELLER_READY) then .noop
  else .committed { s with room := { s.room with status := .AWAITING_PAYMENT } }

/-- `handle_lock_funds`: buyer only, from AWAITING_PAYMENT.  Builds the
contract from the room's registered keys, checks the buyer's wallet, debits
balance into locked and moves to MONEY_SECURED in a single commit.  A missing
wallet or insufficient balance raises before the commit, so nothing persists. -/
def handle_lock_funds (s : EState) (uid : String) (contract_id : String) (now : Nat) :
    HResult :=
  if ¬ (s.room.buyer_id = some uid ∧ s.room.status = .AWAITING_PAYMENT) then .noop
  else
    match getWallet s.wallets uid with
    | none => .raised .walletNotFound s
    | some w =>
      if w.balance < s.room.amount then .raised .insufficientFunds s
      else .committed
        { room := { s.room with
            contract := some (create_contract uid s.room.seller_id s.room.amount
              s.room.buyer_public_key s.room.seller_public_key s.room.ai_public_key
              contract_id now)
            status := .MONEY_SECURED }
          wallets := updateWallet s.wallets uid fun w' =>
            { w' with balance := w'.balance - s.room.amount,
                      locked := w'.locked + s.room.amount } }

/-- `handle_confirm_product_delivered`: seller only, from MONEY_SECURED; a
missing signed message is a silent return.  The seller's RELEASE_TO_SELLER
signature is applied to the contract in place (the returned dict is the same
object), the `seller_signed` flags are added and the room moves to
PRODUCT_DELIVERED. -/
def handle_confirm_product_delivered (s : EState) (uid : String)
    (sg? : Option Sig) (now : Nat) : HResult :=
  if ¬ (s.room.seller_id = uid ∧ s.room.status = .MONEY_SECURED) then .noop
  else
    match sg? with
    | none => .noop
    | some sg =>
      match s.room.contract with
      | none => .raised .contractMissing s
      | some c =>
        match sign c .SELLER .RELEASE_TO_SELLER sg now with
        | .error e => .raised (.signFailed e) s
        | .ok c' => .committed { s with room :=
            { s.room with status := .PRODUCT_DELIVERED, contract := some (setSellerFlags c') } }

/-- `handle_transaction_successfull`: buyer only, from PRODUCT_DELIVERED; the
buyer's RELEASE_TO_SELLER signature is applied.  If the contract completed,
the buyer's locked balance is debited and the recipient's balance credited and
the room moves to COMPLETE, all in the same commit as the contract update. -/
def handle_transaction_successfull (s : EState) (uid : String)
    (sg? : Option Sig) (now : Nat) : HResult :=
  if ¬ (s.room.buyer_id = some uid ∧ s.room.status = .PRODUCT_DELIVERED) then .noop
  else
    match sg? with
    | none => .noop
    | some sg =>
      match s.room.contract with
      | none => .raised .contractMissing s
      | some c =>
        match sign c .BUYER .RELEASE_TO_SELLER sg now with
        | .error e => .raised (.signFailed e) s
        | .ok c' =>
          let room1 := { s.room with contract := some c' }
          if c'.status = .COMPLETED then
            match c'.released_to with
            | none => .raised .walletNotFound s
            | some rid =>
              match getWallet s.wallets rid, getWallet s.wallets uid with
              | some _, some _ =>
                let ws1 := updateWallet s.wallets uid
                  (fun w => { w with locked := w.locked - s.room.amount })
                let ws2 := updateWallet ws1 rid
                  (fun w => { w with balance := w.balance + s.room.amount })
                .committed { room := { room1 with status := .COMPLETE }, wallets := ws2 }
              | _, _ => .raised .walletNotFound s
          else .committed { room := room1, wallets := s.wallets }

/-- `handle_initiate_dispute`: buyer only, from PRODUCT_DELIVERED; the buyer's
REFUND_TO_BUYER signature is applied.  If the contract completed, the source
debits the RECIPIENT wallet's locked balance (not the buyer's) and credits the
same wallet's balance, then sets the room to COMPLETE; the first commit
persists this.  Afterwards the classifier result (passed in as `ev`) is stored,
the dispute opens and the room status is overwritten to DISPUTE in a second
commit. -/
def handle_initiate_dispute (s : EState) (uid : String) (sg? : Option Sig)
    (ev : List String) (now : Nat) : HResult :=
  if ¬ (s.room.buyer_id = some uid ∧ s.room.status = .PRODUCT_DELIVERED) then .noop
  else
    match sg? with
    | none => .noop
    | some sg =>
      match s.room.contract with
      | none => .raised .contractMissing s
      | some c =>
        match sign c .BUYER .REFUND_TO_BUYER sg now with
        | .error e => .raised (.signFailed e) s
        | .ok c' =>
          let room1 := { s.room with contract := some c' }
          let funds? : Option EState :=
            if c'.status = .COMPLETED then
              match c'.released_to with
              | none => none
              | some rid =>
                match getWallet s.wallets rid with
                | none => none
                | some _ =>
                  some { room := { room1 with status := .COMPLETE }
                         wallets := updateWallet s.wallets rid
                           (fun w => { w with locked := w.locked - s.room.amount,
                                              balance := w.balance + s.room.amount }) }
            else some { room := room1, wallets := s.wallets }
          match funds? with
          | none => .raised .walletNotFound s
          | some s1 => .committed { s1 with room :=
              { s1.room with dispute_status := some .AWAITING_EVIDENCE,
                             required_evidence := ev, status := .DISPUTE } }

/-- `handle_finalize_submission`: seller only, from dispute_status
AWAITING_EVIDENCE.  IN_REVIEW is committed first; the verifier verdict `v` is
stored, mapped to a decision, signed with the arbiter key `aiKey` and applied
to the contract.  On completion the buyer's locked balance is debited, the
recipient's balance credited and the room moves to COMPLETE; a raise after the
first commit leaves IN_REVIEW persisted. -/
def handle_finalize_submission (s : EState) (uid : String) (v : AIDecision)
    (aiKey : Nat) (now : Nat) : HResult :=
  if ¬ (s.room.seller_id = uid ∧ s.room.dispute_status = some .AWAITING_EVIDENCE) then .noop
  else
    let s1 : EState := { s with room := { s.room with dispute_status := some .IN_REVIEW } }
    let contract_decision : Decision :=
      if v = .APPROVE then .RELEASE_TO_SELLER else .REFUND_TO_BUYER
    match s1.room.contract with
    | none => .raised .contractMissing s1
    | some c =>
      let aiSig := sign_message aiKey (canonicalMessage c.contract_id .AI_ORACLE contract_decision)
      match sign c .AI_ORACLE contract_decision aiSig now with
      | .error e => .raised (.signFailed e) s1
      | .ok c' =>
        let room2 := { s1.room with
          ai_verdict := some v
          dispute_status := some .RESOLVED
          contract := some c' }
        if c'.status = .COMPLETED then
          match c'.released_to, s.room.buyer_id with
          | some rid, some bid =>
            match getWallet s.wallets rid, getWallet s.wallets bid with
            | some _, some _ =>
              let ws1 := updateWallet s.wallets bid
                (fun w => { w with locked := w.locked - s.room.amount })
              let ws2 := updateWallet ws1 rid
                (fun w => { w with balance := w.balance + s.room.amount })
              .committed { room := { room2 with status := .COMPLETE }, wallets := ws2 }
            | _, _ => .raised .walletNotFound s1
          | _, _ => .raised .walletNotFound s1
        else .committed { room := room2, wallets := s.wallets }

/-- Reasons `websocket_endpoint` refuses a connection in the role-based join
segment. -/
inductive JoinRefusal
  | insufficientBalance
  | roomOccupied
deriving DecidableEq

/-- Outcome of the buyer-join segment: refuse (socket closed, room untouched)
or proceed with the possibly updated room. -/
inductive JoinResult
  | refused (r : JoinRefusal)
  | proceed (room : Room)
deriving DecidableEq

/-- The BUYER branch of `websocket_endpoint`'s role-based joining logic: a
first buyer with sufficient balance is recorded (id, public key) and the room
moves to AWAITING_DESCRIPTION; an undercapitalised first buyer or a different
identity than the recorded buyer is refused; the recorded buyer passes through
unchanged. -/
def buyer_join (room : Room) (uid : String) (userKey : Nat) (w : Wallet) : JoinResult :=
  match room.buyer_id with
  | none =>
    if w.balance < room.amount then .refused .insufficientBalance
    else .proceed { room with buyer_id := some uid, buyer_public_key := some userKey,
                              status := .AWAITING_DESCRIPTION }
  | some b => if b = uid then .proceed room else .refused .roomOccupied

namespace RedisManager

/-- The shared Redis occupancy set for one room, kept duplicate-free. -/
abbrev Occupancy := List String

/-- `SCARD`: the number of members. -/
def scard (o : Occupancy) : Nat := o.length

/-- `SADD`: add a member if absent. -/
def sadd (o : Occupancy) (uid : String) : Occupancy :=
  if uid ∈ o then o else uid :: o

/-- `SREM`: remove a member. -/
def srem (o : Occupancy) (uid : String) : Occupancy :=
  o.filter (fun v => v ≠ uid)

/-- `RedisConnectionManager.connect`, restricted to the shared occupancy set,
when its two separately awaited Redis commands (the `SCARD` read and the
`SADD`) run back to back with nothing interleaved between them: refuse when
the set already has 2 members, otherwise add the identity.  Returns the
admission flag and the new set. -/
def connect (o : Occupancy) (uid : String) : Bool × Occupancy :=
  if 2 ≤ scard o then (false, o) else (true, sadd o uid)

/-- `RedisConnectionManager.disconnect`, restricted to the shared set. -/
def disconnect (o : Occupancy) (uid : String) : Occupancy := srem o uid

/-- Occupancy sets reachable from the empty set through connect/disconnect
when the two commands of each connect are never interleaved with another
task's commands (the serialized executions). -/
inductive OccReachable : Occupancy → Prop
  | empty : OccReachable []
  | connect {o : Occupancy} (uid : String) : OccReachable o → OccReachable (connect o uid).2
  | disconnect {o : Occupancy} (uid : String) : OccReachable o → OccReachable (disconnect o uid)

/-- One interleaved step of the occupancy protocol at the granularity of
single Redis commands.  In the source, `connect` awaits the `SCARD` read and
the `SADD` as two separate commands, so between one task's capacity check and
its add, other tasks (possibly on other processes) may run their own
commands.  A configuration is the shared set together with the list `w` of
identities whose connect task has passed its `SCARD` check and is suspended
just before its `SADD`. -/
inductive OccStep : Occupancy × List String → Occupancy × List String → Prop
  | check (o : Occupancy) (w : List String) (uid : String) :
      ¬ 2 ≤ scard o → OccStep (o, w) (o, uid :: w)
  | add (o : Occupancy) (w₁ w₂ : List String) (uid : String) :
      OccStep (o, w₁ ++ uid :: w₂) (sadd o uid, w₁ ++ w₂)
  | rem (o : Occupancy) (w : List String) (uid : String) :
      OccStep (o, w) (srem o uid, w)

/-- Configurations reachable from the empty room by interleaved tasks. -/
inductive OccTrace : Occupancy × List String → Prop
  | start : OccTrace ([], [])
  | step {s s' : Occupancy × List String} : OccTrace s → OccStep s s' → OccTrace s'

end RedisManager

/-! ### Concrete test fixtures

Small concrete states used by the witness and counterexample theorems below.
Key pairs 1, 2, 3 belong to the buyer `"B"`, the seller `"S"` and the arbiter
respectively. -/

/-- A fresh contract between buyer `"B"` and seller `"S"` over 100. -/
def cW0 : Contract := create_contract "B" "S" 100 (some 1) (some 2) (some 3) "X" 0

/-- The seller's valid RELEASE_TO_SELLER signature for `cW0`. -/
def sigSW : Sig := sign_message 2 (canonicalMessage "X" .SELLER .RELEASE_TO_SELLER)

/-- The buyer's valid RELEASE_TO_SELLER signature for `cW0`. -/
def sigBW : Sig := sign_message 1 (canonicalMessage "X" .BUYER .RELEASE_TO_SELLER)

/-- `cW0` after the seller's valid signature. -/
def cW1 : Contract := ((sign cW0 .SELLER .RELEASE_TO_SELLER sigSW 1).toOption).getD cW0

/-- `cW1` after the buyer's valid signature (2-of-3 reached, executes). -/
def cW2 : Contract := ((sign cW1 .BUYER .RELEASE_TO_SELLER sigBW 2).toOption).getD cW1

/-- A verified seller RELEASE_TO_SELLER slot for contract id `"X"`. -/
def slotSellerRelease : SigSlot :=
  ⟨some .RELEASE_TO_SELLER, some (.real sigSW), true, some 1⟩

/-- A verified arbiter RELEASE_TO_SELLER slot for contract id `"X"`. -/
def slotAiRelease : SigSlot :=
  ⟨some .RELEASE_TO_SELLER,
   some (.real (sign_message 3 (canonicalMessage "X" .AI_ORACLE .RELEASE_TO_SELLER))),
   true, some 2⟩

/-- An ACTIVE contract whose 24h deadline (shortened to 10) has passed, with
the seller already signed RELEASE_TO_SELLER and the buyer slot empty. -/
def cT : Contract :=
  { cW0 with timeout_at := 10, signatures := ⟨emptySlot, slotSellerRelease, emptySlot⟩ }

/-- `cT` after `check_timeout` fires at time 10. -/
def cT2 : Contract := check_timeout cT 10

/-- An ACTIVE contract in which SELLER and AI_ORACLE already hold verified
RELEASE_TO_SELLER records: the next verified signature triggers execution in
favour of the seller. -/
def cBug : Contract :=
  { cW0 with signatures := ⟨emptySlot, slotSellerRelease, slotAiRelease⟩ }

/-- A PRODUCT_DELIVERED room over `cBug`, amount 100. -/
def roomBug : Room :=
  { room_phrase := "r"
    seller_id := "S"
    buyer_id := some "B"
    amount := 100
    description := some "d"
    status := .PRODUCT_DELIVERED
    buyer_public_key := some 1
    seller_public_key := some 2
    ai_public_key := some 3
    contract := some cBug
    dispute_status := none
    required_evidence := []
    ai_verdict := none }

/-- Wallets for `roomBug`: the buyer has 100 locked from the earlier
lock-funds; the seller has nothing locked. -/
def sBug : EState :=
  { room := roomBug, wallets := [("B", ⟨900, 100⟩), ("S", ⟨500, 0⟩)] }

/-- The buyer's valid REFUND_TO_BUYER signature for contract `"X"`. -/
def sigBugRefund : Sig := sign_message 1 (canonicalMessage "X" .BUYER .REFUND_TO_BUYER)

/-- The state committed by `handle_initiate_dispute` on `sBug`. -/
def sBugAfter : EState :=
  match handle_initiate_dispute sBug "B" (some sigBugRefund) [] 7 with
  | .committed s => s
  | _ => sBug

/-- An AWAITING_PAYMENT room (before lock-funds) used by the C4 witness. -/
def roomPay : Room := { roomBug with status := .AWAITING_PAYMENT, contract := none }

/-- A buyer wallet too small for `roomPay`'s amount. -/
def sPoor : EState := { room := roomPay, wallets := [("B", ⟨50, 0⟩)] }

/-- A freshly created room with no buyer yet. -/
def roomOpen : Room :=
  { roomBug with buyer_id := none, buyer_public_key := none, status := .WAITING_FOR_BUYER }

/-! ### Helper lemmas -/

theorem PartyMap.get_set_same {α : Type} (m : PartyMap α) (p : Party) (v : α) :
    (m.set p v).get p = v := by
  cases p <;> rfl

theorem tryExecute_signatures (c : Contract) (now : Nat) :
    (tryExecute c now).signatures = c.signatures := by
  unfold tryExecute
  split
  · rfl
  split
  · rfl
  split
  · rfl
  · rfl

theorem tryExecute_public_keys (c : Contract) (now : Nat) :
    (tryExecute c now).public_keys = c.public_keys := by
  unfold tryExecute
  split
  · rfl
  split
  · rfl
  split
  · rfl
  · rfl

theorem tryExecute_inv (c : Contract) (now : Nat)
    (h : c.released_to.isSome ↔ c.status = .COMPLETED) :
    (tryExecute c now).released_to.isSome ↔ (tryExecute c now).status = .COMPLETED := by
  unfold tryExecute
  split
  · exact h
  split
  · simp
  split
  · simp
  · exact h

theorem tryExecute_completed_src (c : Contract) (now : Nat)
    (h : (tryExecute c now).status = .COMPLETED) :
    c.status = .COMPLETED ∨ ∃ d : Decision, 2 ≤ decisionCount c.signatures d := by
  unfold tryExecute at h
  split at h
  · exact Or.inl h
  split at h
  next h2 => exact Or.inr ⟨_, h2⟩
  split at h
  next h2 => exact Or.inr ⟨_, h2⟩
  · exact Or.inl h

theorem tryExecute_release_completed (c : Contract) (now : Nat)
    (hA : c.status = .ACTIVE)
    (h2 : 2 ≤ decisionCount c.signatures .RELEASE_TO_SELLER) :
    (tryExecute c now).status = .COMPLETED := by
  unfold tryExecute
  rw [if_neg (by simp [hA]), if_pos h2]

theorem sign_ok_elim {c : Contract} {p : Party} {d : Decision} {sg : Sig} {now : Nat}
    {c' : Contract} (h : sign c p d sg now = .ok c') :
    c.status = .ACTIVE
    ∧ verify_signature (canonicalMessage c.contract_id p d) sg (c.public_keys.get p) = true
    ∧ c' = tryExecute
        { c with signatures :=
            c.signatures.set p ⟨some d, some (.real sg), true, some now⟩ } now := by
  unfold sign at h
  split at h
  · simp at h
  next hA =>
    split at h
    · simp at h
    next hV =>
      refine ⟨not_not.mp hA, ?_, ?_⟩
      · cases hb : verify_signature (canonicalMessage c.contract_id p d) sg
            (c.public_keys.get p) with
        | true => rfl
        | false => exact absurd hb hV
      · injection h with h2
        exact h2.symm

theorem check_timeout_not_active {c : Contract} {now : Nat} (h : c.status ≠ .ACTIVE) :
    check_timeout c now = c := by
  unfold check_timeout
  rw [if_pos h]

theorem contract_inv_reachable {c : Contract} (h : ReachableContract c) :
    c.released_to.isSome ↔ c.status = .COMPLETED := by
  induction h with
  | create buyer_id seller_id amount bpk spk apk contract_id now =>
      simp [create_contract]
  | step hr hs ih =>
      cases hs with
      | signed p d sg now c2 hok =>
          obtain ⟨hA, hV, rfl⟩ := sign_ok_elim hok
          exact tryExecute_inv _ _ ih
      | timeout now =>
          unfold check_timeout
          split
          · exact ih
          split
          · apply tryExecute_inv
            split
            · exact ih
            · exact ih
          · exact ih
      | flags => exact ih

theorem getWallet_update_same (db : WalletDB) (uid : String) (f : Wallet → Wallet)
    (w : Wallet) (h : getWallet db uid = some w) :
    getWallet (updateWallet db uid f) uid = some (f w) := by
  induction db with
  | nil => simp [getWallet] at h
  | cons p t ih =>
      obtain ⟨k, wv⟩ := p
      by_cases hk : k = uid
      · subst hk
        simp only [getWallet, if_pos rfl] at h
        simp only [updateWallet, if_pos rfl, getWallet]
        injection h with h2
        rw [h2]
        simp
      · simp only [getWallet, if_neg hk] at h
        simp only [updateWallet, if_neg hk, getWallet]
        exact ih h

theorem getWallet_update_other (db : WalletDB) (uid v : String) (f : Wallet → Wallet)
    (h : v ≠ uid) :
    getWallet (updateWallet db uid f) v = getWallet db v := by
  induction db with
  | nil => rfl
  | cons p t ih =>
      obtain ⟨k, wv⟩ := p
      by_cases hk : k = uid
      · subst hk
        have hkv : ¬ (k = v) := fun hh => h hh.symm
        simp only [updateWallet, if_pos rfl, getWallet]
        rw [if_neg hkv, if_neg hkv]
        exact ih
      · simp only [updateWallet, if_neg hk, getWallet]
        by_cases hkv : k = v
        · rw [if_pos hkv, if_pos hkv]
        · rw [if_neg hkv, if_neg hkv]
          exact ih

theorem verify_true_elim {m : String} {sg : Sig} {pk : PubKey}
    (h : verify_signature m sg pk = true) :
    pk = some sg.signerKey ∧ sg.signedMsg = m := by
  unfold verify_signature at h
  rw [Bool.and_eq_true] at h
  exact ⟨by simpa using h.1, by simpa using h.2⟩

theorem occ_invariant {o : RedisManager.Occupancy} (h : RedisManager.OccReachable o) :
    o.Nodup ∧ o.length ≤ 2 := by
  induction h with
  | empty => simp
  | connect uid _ ih =>
      obtain ⟨hn, hl⟩ := ih
      unfold RedisManager.connect
      split
      · exact ⟨hn, hl⟩
      next hlt =>
        unfold RedisManager.sadd
        split
        · exact ⟨hn, hl⟩
        next hmem =>
          refine ⟨List.nodup_cons.mpr ⟨hmem, hn⟩, ?_⟩
          simp only [RedisManager.scard, not_le] at hlt
          simp only [List.length_cons]
          omega
  | disconnect uid _ ih =>
      obtain ⟨hn, hl⟩ := ih
      exact ⟨hn.filter _, le_trans (List.length_filter_le _ _) hl⟩

theorem occReachable_occTrace {o : RedisManager.Occupancy}
    (h : RedisManager.OccReachable o) : RedisManager.OccTrace (o, []) := by
  induction h with
  | empty => exact RedisManager.OccTrace.start
  | connect uid _ ih =>
      unfold RedisManager.connect
      split
      · exact ih
      next hfull =>
        exact RedisManager.OccTrace.step
          (RedisManager.OccTrace.step ih (RedisManager.OccStep.check _ [] uid hfull))
          (RedisManager.OccStep.add _ [] [] uid)
  | disconnect uid _ ih =>
      exact RedisManager.OccTrace.step ih (RedisManager.OccStep.rem _ [] uid)

/-! ### Claim theorems -/

/-- C1: on every reachable contract, `released_to` is set iff the status is
COMPLETED; a mutation step never moves a COMPLETED contract back (COMPLETED is
absorbing, so the ACTIVE→COMPLETED transition happens at most once); and a step
that completes an ACTIVE contract leaves ≥ 2 of the 3 parties holding verified
signature records agreeing on one decision. -/
theorem c1_contract_status_transitions (c c' : Contract)
    (hr : ReachableContract c) (hs : CStep c c') :
    (c.released_to.isSome ↔ c.status = .COMPLETED)
    ∧ (c.status = .COMPLETED → c'.status = .COMPLETED)
    ∧ (c.status = .ACTIVE → c'.status = .COMPLETED →
        ∃ d : Decision, 2 ≤ decisionCount c'.signatures d) := by
  refine ⟨contract_inv_reachable hr, ?_, ?_⟩
  · intro hc
    cases hs with
    | signed p d sg now c2 hok =>
        obtain ⟨hA, -, -⟩ := sign_ok_elim hok
        rw [hA] at hc
        cases hc
    | timeout now =>
        rw [check_timeout_not_active (by simp [hc])]
        exact hc
    | flags =>
        have h2 : c.status = .COMPLETED := hc
        exact h2
  · intro hA hc'
    cases hs with
    | signed p d sg now c2 hok =>
        obtain ⟨-, -, rfl⟩ := sign_ok_elim hok
        rcases tryExecute_completed_src _ _ hc' with h | ⟨d2, hd2⟩
        · have h2 : c.status = .COMPLETED := h
          rw [hA] at h2
          cases h2
        · refine ⟨d2, ?_⟩
          rw [tryExecute_signatures]
          exact hd2
    | timeout now =>
        unfold check_timeout at hc' ⊢
        rw [if_neg (by simp [hA])] at hc' ⊢
        split at hc'
        next hT =>
          rw [if_pos hT]
          rcases tryExecute_completed_src _ _ hc' with h | ⟨d2, hd2⟩
          · have h2 : c.status = .COMPLETED := by
              revert h
              split
              · intro h; exact h
              · intro h; exact h
            rw [hA] at h2
            cases h2
          · refine ⟨d2, ?_⟩
            rw [tryExecute_signatures]
            exact hd2
        next hT =>
          rw [hA] at hc'
          cases hc'
    | flags =>
        have h2 : c.status = .COMPLETED := hc'
        rw [hA] at h2
        cases h2

/-- C1 witness: `cW1` (reachable, still ACTIVE) is completed by the buyer's
second agreeing signature, and the completed contract indeed holds a decision
with ≥ 2 verified records. -/
theorem c1_contract_status_transitions_witness :
    ∃ d : Decision, 2 ≤ decisionCount cW2.signatures d := by
  have hok1 : sign cW0 .SELLER .RELEASE_TO_SELLER sigSW 1 = .ok cW1 := rfl
  have hok2 : sign cW1 .BUYER .RELEASE_TO_SELLER sigBW 2 = .ok cW2 := rfl
  have hr : ReachableContract cW1 :=
    ReachableContract.step
      (ReachableContract.create "B" "S" 100 (some 1) (some 2) (some 3) "X" 0)
      (CStep.signed cW0 .SELLER .RELEASE_TO_SELLER sigSW 1 cW1 hok1)
  exact (c1_contract_status_transitions cW1 cW2 hr
    (CStep.signed cW1 .BUYER .RELEASE_TO_SELLER sigBW 2 cW2 hok2)).2.2
    (by decide) (by decide)

/-- C2: `sign` records a verified slot for a party only when the submitted
signature was produced with the key registered for that party over exactly the
canonical message `contract_id:party:decision`; a signature under any other key
or over any other message is never accepted; and no contract mutation step
ever changes the registered keys, so the key checked is the one from contract
creation. -/
theorem c2_signature_canonical_message (c : Contract) (p : Party) (d : Decision)
    (sg : Sig) (now : Nat) :
    (∀ c', sign c p d sg now = .ok c' →
        c.public_keys.get p = some sg.signerKey
        ∧ sg.signedMsg = canonicalMessage c.contract_id p d
        ∧ c'.signatures.get p = ⟨some d, some (.real sg), true, some now⟩)
    ∧ ((c.public_keys.get p ≠ some sg.signerKey
        ∨ sg.signedMsg ≠ canonicalMessage c.contract_id p d) →
        ∀ c', sign c p d sg now ≠ .ok c')
    ∧ (∀ c₂, CStep c c₂ → c₂.public_keys = c.public_keys) := by
  have hmain : ∀ c', sign c p d sg now = .ok c' →
      c.public_keys.get p = some sg.signerKey
      ∧ sg.signedMsg = canonicalMessage c.contract_id p d
      ∧ c'.signatures.get p = ⟨some d, some (.real sg), true, some now⟩ := by
    intro c' hok
    obtain ⟨hA, hV, rfl⟩ := sign_ok_elim hok
    obtain ⟨h1, h2⟩ := verify_true_elim hV
    refine ⟨h1, h2, ?_⟩
    rw [tryExecute_signatures]
    exact PartyMap.get_set_same _ _ _
  refine ⟨hmain, ?_, ?_⟩
  · intro hbad c' hok
    obtain ⟨h1, h2, -⟩ := hmain c' hok
    rcases hbad with hb | hb
    · exact hb h1
    · exact hb h2
  · intro c₂ hstep
    cases hstep with
    | signed p2 d2 sg2 now2 c2 hok =>
        obtain ⟨-, -, rfl⟩ := sign_ok_elim hok
        rw [tryExecute_public_keys]
    | timeout now2 =>
        unfold check_timeout
        split
        · rfl
        split
        · rw [tryExecute_public_keys]
          split
          · rfl
          · rfl
        · rfl
    | flags => rfl

/-- C2 witness: the seller's signature on `cW0` is accepted, and it indeed
carries the registered key and the canonical message. -/
theorem c2_signature_canonical_message_witness :
    cW0.public_keys.get .SELLER = some sigSW.signerKey
    ∧ sigSW.signedMsg = canonicalMessage cW0.contract_id .SELLER .RELEASE_TO_SELLER
    ∧ cW1.signatures.get .SELLER
        = ⟨some .RELEASE_TO_SELLER, some (.real sigSW), true, some 1⟩ :=
  (c2_signature_canonical_message cW0 .SELLER .RELEASE_TO_SELLER sigSW 1).1 cW1 rfl

/-- C3: `sign` raises ContractNotActive on a non-ACTIVE contract and
InvalidSignature when verification fails, and on either failure the contract
dictionary is left exactly as it was (no slot, status or release field is
touched: the source assigns only after verification succeeds, which
`signState` captures). -/
theorem c3_sign_failure_no_mutation (c : Contract) (p : Party) (d : Decision)
    (sg : Sig) (now : Nat) :
    (c.status ≠ .ACTIVE →
        sign c p d sg now = .error .ContractNotActive
        ∧ signState c p d sg now = c)
    ∧ (c.status = .ACTIVE →
        verify_signature (canonicalMessage c.contract_id p d) sg (c.public_keys.get p)
          = false →
        sign c p d sg now = .error .InvalidSignature
        ∧ signState c p d sg now = c) := by
  constructor
  · intro hna
    have h1 : sign c p d sg now = .error .ContractNotActive := by
      unfold sign
      rw [if_pos hna]
    refine ⟨h1, ?_⟩
    unfold signState
    rw [h1]
  · intro hA hV
    have h1 : sign c p d sg now = .error .InvalidSignature := by
      unfold sign
      rw [if_neg (by simp [hA]), if_pos hV]
    refine ⟨h1, ?_⟩
    unfold signState
    rw [h1]

/-- C3 witness: signing the already COMPLETED contract `cW2` fails with
ContractNotActive and leaves the contract unchanged. -/
theorem c3_sign_failure_no_mutation_witness :
    sign cW2 .BUYER .RELEASE_TO_SELLER sigBW 3 = .error .ContractNotActive
    ∧ signState cW2 .BUYER .RELEASE_TO_SELLER sigBW 3 = cW2 :=
  (c3_sign_failure_no_mutation cW2 .BUYER .RELEASE_TO_SELLER sigBW 3).1 (by decide)

/-- C4: `handle_lock_funds` commits only when the actor is the room's buyer
and the room is AWAITING_PAYMENT, and then in one committed state it stores
the newly created contract, debits the buyer's balance by exactly the room
amount, credits the buyer's locked balance by exactly the room amount, moves
the room to MONEY_SECURED and touches no other wallet; when the buyer's
balance is below the amount it raises InsufficientFunds with the pre-state
persisted unchanged. -/
theorem c4_lock_funds (s : EState) (uid contract_id : String) (now : Nat) :
    (∀ s', handle_lock_funds s uid contract_id now = .committed s' →
        s.room.buyer_id = some uid ∧ s.room.status = .AWAITING_PAYMENT
        ∧ ∃ w, getWallet s.wallets uid = some w ∧ s.room.amount ≤ w.balance
            ∧ s' = { room := { s.room with
                        contract := some (create_contract uid s.room.seller_id
                          s.room.amount s.room.buyer_public_key s.room.seller_public_key
                          s.room.ai_public_key contract_id now)
                        status := .MONEY_SECURED }
                     wallets := updateWallet s.wallets uid fun w' =>
                       { w' with balance := w'.balance - s.room.amount,
                                 locked := w'.locked + s.room.amount } }
            ∧ getWallet s'.wallets uid
                = some ⟨w.balance - s.room.amount, w.locked + s.room.amount⟩
            ∧ ∀ v, v ≠ uid → getWallet s'.wallets v = getWallet s.wallets v)
    ∧ (∀ w, s.room.buyer_id = some uid → s.room.status = .AWAITING_PAYMENT →
        getWallet s.wallets uid = some w → w.balance < s.room.amount →
        handle_lock_funds s uid contract_id now = .raised .insufficientFunds s) := by
  constructor
  · intro s' h
    unfold handle_lock_funds at h
    split at h
    · simp at h
    next hg =>
      obtain ⟨hb, hstat⟩ := not_not.mp hg
      split at h
      · simp at h
      next w heq =>
        split at h
        · simp at h
        next hlt =>
          injection h with h2
          refine ⟨hb, hstat, w, heq, not_lt.mp hlt, h2.symm, ?_, ?_⟩
          · rw [← h2]
            exact getWallet_update_same _ _ _ _ heq
          · intro v hv
            rw [← h2]
            exact getWallet_update_other _ _ _ _ hv
  · intro w hb hstat hw hlt
    unfold handle_lock_funds
    rw [if_neg (not_not_intro ⟨hb, hstat⟩), hw]
    simp [hlt]

/-- C4 witness: in `sPoor` the buyer's balance (50) is below the amount (100),
so lock-funds raises InsufficientFunds and persists nothing. -/
theorem c4_lock_funds_witness :
    handle_lock_funds sPoor "B" "Y" 3 = .raised .insufficientFunds sPoor :=
  (c4_lock_funds sPoor "B" "Y" 3).2 ⟨50, 0⟩ (by decide) (by decide) (by decide) (by decide)

/-- C5 (code bug, see RESULTS): concrete run of `handle_initiate_dispute` on a
state whose contract already holds verified SELLER and AI_ORACLE
RELEASE_TO_SELLER records.  The buyer's valid REFUND_TO_BUYER signature
completes the contract in favour of the seller, and the handler then debits
the RECIPIENT wallet's locked balance — the seller's, driving it to −100 —
while the buyer's locked balance stays at 100, instead of debiting the buyer's
locked balance as the claim (and the two sibling completion handlers) state. -/
theorem c5_initiate_dispute_wallet_slip :
    handle_initiate_dispute sBug "B" (some sigBugRefund) [] 7 = .committed sBugAfter
    ∧ sBugAfter.room.contract.map (fun c => c.status) = some .COMPLETED
    ∧ sBugAfter.room.contract.bind (fun c => c.released_to) = some "S"
    ∧ getWallet sBug.wallets "B" = some ⟨900, 100⟩
    ∧ getWallet sBugAfter.wallets "B" = some ⟨900, 100⟩
    ∧ getWallet sBugAfter.wallets "S" = some ⟨600, -100⟩ := by
  decide

/-- C6 counterexample: on the expired contract `cT`, `check_timeout` fills the
buyer slot with decision RELEASE_TO_SELLER and verified=true as claimed, but
the slot's signature field is NOT null — the source stores the sentinel string
`TIMEOUT_IMPLICIT` in it. -/
theorem c6_timeout_counterexample :
    (check_timeout cT 10).signatures.buyer.decision = some .RELEASE_TO_SELLER
    ∧ (check_timeout cT 10).signatures.buyer.verified = true
    ∧ (check_timeout cT 10).signatures.buyer.signature ≠ none
    ∧ (check_timeout cT 10).signatures.buyer.signature = some .timeoutImplicit := by
  decide

/-- C6 (amended): on an ACTIVE contract whose deadline has passed and whose
buyer slot is unverified, `check_timeout` fills the buyer slot with an
implicit record carrying decision RELEASE_TO_SELLER, verified=true and the
non-cryptographic sentinel signature value TIMEOUT_IMPLICIT, then re-runs the
tally/execute step; the implicit record raises the RELEASE_TO_SELLER tally by
one, so together with one existing verified RELEASE_TO_SELLER record it
reaches the 2-of-3 threshold and executes the contract. -/
theorem c6_timeout_implicit_record (c : Contract) (now : Nat)
    (hA : c.status = .ACTIVE) (hT : c.timeout_at ≤ now)
    (hB : c.signatures.buyer.verified = false) :
    check_timeout c now =
      tryExecute { c with
        timeout_expired := true
        signatures := c.signatures.set .BUYER
          ⟨some .RELEASE_TO_SELLER, some .timeoutImplicit, true, some now⟩ } now
    ∧ (check_timeout c now).signatures.buyer
        = ⟨some .RELEASE_TO_SELLER, some .timeoutImplicit, true, some now⟩
    ∧ decisionCount (check_timeout c now).signatures .RELEASE_TO_SELLER
        = decisionCount c.signatures .RELEASE_TO_SELLER + 1
    ∧ ((c.signatures.seller.countsFor .RELEASE_TO_SELLER = true
        ∨ c.signatures.ai.countsFor .RELEASE_TO_SELLER = true) →
       (check_timeout c now).status = .COMPLETED) := by
  have h1 : check_timeout c now =
      tryExecute { c with
        timeout_expired := true
        signatures := c.signatures.set .BUYER
          ⟨some .RELEASE_TO_SELLER, some .timeoutImplicit, true, some now⟩ } now := by
    unfold check_timeout
    rw [if_neg (by simp [hA]), if_pos hT, if_neg (by simp [hB])]
  have hbuyer : c.signatures.buyer.countsFor .RELEASE_TO_SELLER = false := by
    simp [SigSlot.countsFor, hB]
  have hcount : decisionCount
      (c.signatures.set .BUYER
        ⟨some .RELEASE_TO_SELLER, some .timeoutImplicit, true, some now⟩)
      .RELEASE_TO_SELLER
      = decisionCount c.signatures .RELEASE_TO_SELLER + 1 := by
    unfold decisionCount
    rw [show (c.signatures.set .BUYER
        ⟨some .RELEASE_TO_SELLER, some .timeoutImplicit, true, some now⟩).buyer
      = ⟨some .RELEASE_TO_SELLER, some .timeoutImplicit, true, some now⟩ from rfl]
    rw [show (c.signatures.set .BUYER
        ⟨some .RELEASE_TO_SELLER, some .timeoutImplicit, true, some now⟩).seller
      = c.signatures.seller from rfl]
    rw [show (c.signatures.set .BUYER
        ⟨some .RELEASE_TO_SELLER, some .timeoutImplicit, true, some now⟩).ai
      = c.signatures.ai from rfl]
    rw [hbuyer]
    rw [show (⟨some .RELEASE_TO_SELLER, some .timeoutImplicit, true, some now⟩
        : SigSlot).countsFor .RELEASE_TO_SELLER = true from rfl]
    simp
    omega
  refine ⟨h1, ?_, ?_, ?_⟩
  · rw [h1, tryExecute_signatures]
    exact rfl
  · rw [h1, tryExecute_signatures]
    exact hcount
  · intro hor
    have hold : 1 ≤ decisionCount c.signatures .RELEASE_TO_SELLER := by
      rcases hor with h | h
      all_goals unfold decisionCount
      · rw [h]
        simp
        try omega
      · rw [h]
        simp
        try omega
    rw [h1]
    refine tryExecute_release_completed _ _ hA ?_
    rw [hcount]
    omega

/-- C6 witness: on `cT` (seller already verified for RELEASE_TO_SELLER, buyer
slot empty, deadline 10 passed) the implicit timeout record completes the
contract. -/
theorem c6_timeout_implicit_record_witness :
    (check_timeout cT 10).status = .COMPLETED :=
  (c6_timeout_implicit_record cT 10 (by decide) (by decide) (by decide)).2.2.2
    (Or.inl (by decide))

/-- C7 counterexample: for the timeout-completed contract `cT2`, the audit
read path `verify_all_signatures` reports the buyer slot with verified=true
(it echoes the stored flag), so the slot is NOT reported as failing
cryptographic verification; it is distinguished only by the
"Timeout implicit" note. -/
theorem c7_audit_counterexample :
    cT2.signatures.buyer.signature = some .timeoutImplicit
    ∧ (verify_all_signatures cT2).buyer.verified = true
    ∧ (verify_all_signatures cT2).buyer.note = some "Timeout implicit" := by
  decide

/-- C7 (amended): for any contract whose buyer slot was filled by the timeout
path, `verify_all_signatures` does not re-run cryptographic verification for
that slot: it echoes the stored verified flag and attaches the note
"Timeout implicit", which is what distinguishes it from cryptographically
verified slots, whose audit rows carry no note. -/
theorem c7_audit_timeout_slot (c : Contract)
    (h : c.signatures.buyer.signature = some .timeoutImplicit) :
    (verify_all_signatures c).buyer
      = ⟨c.signatures.buyer.verified, c.signatures.buyer.decision, some "Timeout implicit"⟩
    ∧ (∀ (p : Party) (sg : Sig), (c.signatures.get p).signature = some (.real sg) →
        ((verify_all_signatures c).get p).note = none) := by
  constructor
  · show auditSlot c.contract_id c.public_keys.buyer .BUYER c.signatures.buyer = _
    unfold auditSlot
    rw [h]
  · intro p sg hp
    cases p with
    | BUYER =>
        have hp' : c.signatures.buyer.signature = some (.real sg) := hp
        show (auditSlot c.contract_id c.public_keys.buyer .BUYER c.signatures.buyer).note
          = none
        unfold auditSlot
        rw [hp']
    | SELLER =>
        have hp' : c.signatures.seller.signature = some (.real sg) := hp
        show (auditSlot c.contract_id c.public_keys.seller .SELLER c.signatures.seller).note
          = none
        unfold auditSlot
        rw [hp']
    | AI_ORACLE =>
        have hp' : c.signatures.ai.signature = some (.real sg) := hp
        show (auditSlot c.contract_id c.public_keys.ai .AI_ORACLE c.signatures.ai).note
          = none
        unfold auditSlot
        rw [hp']

/-- C7 witness: the audit row of `cT2`'s buyer slot echoes verified=true with
the distinguishing note. -/
theorem c7_audit_timeout_slot_witness :
    (verify_all_signatures cT2).buyer
      = ⟨cT2.signatures.buyer.verified, cT2.signatures.buyer.decision,
         some "Timeout implicit"⟩ :=
  (c7_audit_timeout_slot cT2 (by decide)).1

/-- C8 counterexample, refuting both halves of the claim.  First: with the
occupancy set holding the 2 distinct members "a" and "b", `connect` refuses
even the member "a" itself — the source checks only the cardinality, with no
exemption for an identity already in the set.  Second: because `connect`
awaits its `SCARD` check and its `SADD` as two separate Redis commands, three
racing connects can each pass the check against the still-empty set and then
all add themselves, so the interleaved protocol reaches a room whose shared
set holds 3 distinct identities — the cross-process occupancy bound of 2
does not hold. -/
theorem c8_connect_counterexample :
    ("a" ∈ (["a", "b"] : List String)
      ∧ (RedisManager.connect ["a", "b"] "a").1 = false)
    ∧ (RedisManager.OccTrace (["c", "b", "a"], [])
      ∧ (["c", "b", "a"] : List String).Nodup
      ∧ 3 ≤ (["c", "b", "a"] : List String).length) := by
  refine ⟨⟨by decide, by decide⟩, ?_, by decide, by decide⟩
  have t1 : RedisManager.OccTrace ([], ["c"]) :=
    RedisManager.OccTrace.step RedisManager.OccTrace.start
      (RedisManager.OccStep.check [] [] "c" (by decide))
  have t2 : RedisManager.OccTrace ([], ["b", "c"]) :=
    RedisManager.OccTrace.step t1 (RedisManager.OccStep.check [] ["c"] "b" (by decide))
  have t3 : RedisManager.OccTrace ([], ["a", "b", "c"]) :=
    RedisManager.OccTrace.step t2 (RedisManager.OccStep.check [] ["b", "c"] "a" (by decide))
  have t4 : RedisManager.OccTrace (["a"], ["b", "c"]) :=
    RedisManager.OccTrace.step t3 (RedisManager.OccStep.add [] [] ["b", "c"] "a")
  have t5 : RedisManager.OccTrace (["b", "a"], ["c"]) :=
    RedisManager.OccTrace.step t4 (RedisManager.OccStep.add ["a"] [] ["c"] "b")
  exact RedisManager.OccTrace.step t5 (RedisManager.OccStep.add ["b", "a"] [] [] "c")

/-- C8 (amended): `connect` fails exactly when the shared occupancy set
already holds 2 members, regardless of whether the connecting identity is one
of them; and only when the `SCARD` check and the `SADD` of each connect run
without interleaving does the room keep at most 2 distinct identities, before
and after any further connect — every such serialized state is also a state
of the interleaved command-level protocol (with no connect in flight), while
interleaved connects can exceed the bound, as the counterexample shows. -/
theorem c8_room_capacity (o : RedisManager.Occupancy) (uid : String)
    (hr : RedisManager.OccReachable o) :
    ((RedisManager.connect o uid).1 = false ↔ 2 ≤ o.length)
    ∧ o.Nodup ∧ o.length ≤ 2
    ∧ (RedisManager.connect o uid).2.length ≤ 2
    ∧ RedisManager.OccTrace (o, []) := by
  obtain ⟨hn, hl⟩ := occ_invariant hr
  refine ⟨?_, hn, hl, ?_, occReachable_occTrace hr⟩
  · unfold RedisManager.connect RedisManager.scard
    split
    next h => simpa using h
    next h => simpa using h
  · unfold RedisManager.connect
    split
    · exact hl
    next h =>
      unfold RedisManager.sadd
      split
      · exact hl
      · simp only [RedisManager.scard, not_le] at h
        simp only [List.length_cons]
        omega

/-- C8 witness: from the serialized-reachable singleton occupancy `["a"]`, a
second distinct identity is admitted, the bound of 2 is kept, and the state
is a quiescent state of the interleaved protocol. -/
theorem c8_room_capacity_witness :
    ((RedisManager.connect ["a"] "b").1 = false ↔ 2 ≤ (["a"] : List String).length)
    ∧ (["a"] : List String).Nodup ∧ (["a"] : List String).length ≤ 2
    ∧ (RedisManager.connect ["a"] "b").2.length ≤ 2
    ∧ RedisManager.OccTrace (["a"], []) := by
  have h0 : RedisManager.OccReachable (RedisManager.connect [] "a").2 :=
    RedisManager.OccReachable.connect "a" RedisManager.OccReachable.empty
  have h1 : RedisManager.OccReachable ["a"] := by
    simpa [RedisManager.connect, RedisManager.scard, RedisManager.sadd] using h0
  exact c8_room_capacity ["a"] "b" h1

/-- C9: every room-transition handler whose actor/state precondition (or
dispute-status precondition, for finalize) does not hold returns silently as a
no-op before any mutation, so the persisted state is exactly the pre-state and
a stale or duplicated action records no signature and moves no funds. -/
theorem c9_stale_actions_noop (s : EState) (uid desc contract_id : String)
    (sg? : Option Sig) (ev : List String) (v : AIDecision) (aiKey now : Nat) :
    (¬ (s.room.buyer_id = some uid ∧ s.room.status = .AWAITING_DESCRIPTION) →
        handle_propose_description s uid desc = .noop)
    ∧ (¬ ((s.room.seller_id = uid ∧ s.room.status = .AWAITING_SELLER_APPROVAL)
        ∨ (s.room.buyer_id = some uid ∧ s.room.status = .AWAITING_BUYER_APPROVAL)) →
        handle_approve_description s uid = .noop)
    ∧ (¬ ((s.room.seller_id = uid ∧ s.room.status = .AWAITING_SELLER_APPROVAL)
        ∨ (s.room.buyer_id = some uid ∧ s.room.status = .AWAITING_BUYER_APPROVAL)) →
        handle_edit_description s uid desc = .noop)
    ∧ (¬ (s.room.seller_id = uid ∧ s.room.status = .AWAITING_SELLER_READY) →
        handle_confirm_seller_ready s uid = .noop)
    ∧ (¬ (s.room.buyer_id = some uid ∧ s.room.status = .AWAITING_PAYMENT) →
        handle_lock_funds s uid contract_id now = .noop)
    ∧ (¬ (s.room.seller_id = uid ∧ s.room.status = .MONEY_SECURED) →
        handle_confirm_product_delivered s uid sg? now = .noop)
    ∧ (¬ (s.room.buyer_id = some uid ∧ s.room.status = .PRODUCT_DELIVERED) →
        handle_transaction_successfull s uid sg? now = .noop)
    ∧ (¬ (s.room.buyer_id = some uid ∧ s.room.status = .PRODUCT_DELIVERED) →
        handle_initiate_dispute s uid sg? ev now = .noop)
    ∧ (¬ (s.room.seller_id = uid ∧ s.room.dispute_status = some .AWAITING_EVIDENCE) →
        handle_finalize_submission s uid v aiKey now = .noop)
    ∧ (∀ pre : EState, HResult.noop.persisted pre = pre) := by
  refine ⟨?_, ?_, ?_, ?_, ?_, ?_, ?_, ?_, ?_, fun _ => rfl⟩
  · intro h
    unfold handle_propose_description
    rw [if_pos h]
  · intro h
    unfold handle_approve_description
    rw [if_pos h]
  · intro h
    unfold handle_edit_description
    rw [if_pos h]
  · intro h
    unfold handle_confirm_seller_ready
    rw [if_pos h]
  · intro h
    unfold handle_lock_funds
    rw [if_pos h]
  · intro h
    unfold handle_confirm_product_delivered
    rw [if_pos h]
  · intro h
    unfold handle_transaction_successfull
    rw [if_pos h]
  · intro h
    unfold handle_initiate_dispute
    rw [if_pos h]
  · intro h
    unfold handle_finalize_submission
    rw [if_pos h]

/-- C9 witness: a lock-funds action sent by the seller "S" (not the room's
buyer) on the PRODUCT_DELIVERED room of `sBug` is a silent no-op, and the
persisted state is the pre-state. -/
theorem c9_stale_actions_noop_witness :
    handle_lock_funds sBug "S" "Y" 9 = .noop
    ∧ HResult.noop.persisted sBug = sBug := by
  have h := c9_stale_actions_noop sBug "S" "" "Y" none [] .APPROVE 0 9
  exact ⟨h.2.2.2.2.1 (by decide), h.2.2.2.2.2.2.2.2.2 sBug⟩

/-- C10: for a BUYER websocket connection, if the room has no buyer yet the
connection is refused exactly when the wallet balance is below the room
amount, otherwise the user is recorded as the buyer (id and public key) and
the room moves to AWAITING_DESCRIPTION; once a buyer is recorded, a different
identity is refused and a repeat connection by the same buyer leaves the room
unchanged, so the buyer fields are set exactly once. -/
theorem c10_buyer_join (room : Room) (uid : String) (key : Nat) (w : Wallet) :
    (room.buyer_id = none → w.balance < room.amount →
        buyer_join room uid key w = .refused .insufficientBalance)
    ∧ (room.buyer_id = none → room.amount ≤ w.balance →
        buyer_join room uid key w = .proceed { room with
          buyer_id := some uid
          buyer_public_key := some key
          status := .AWAITING_DESCRIPTION })
    ∧ (∀ b, room.buyer_id = some b → b ≠ uid →
        buyer_join room uid key w = .refused .roomOccupied)
    ∧ (∀ b, room.buyer_id = some b →
        ∀ r', buyer_join room uid key w = .proceed r' → r' = room) := by
  refine ⟨?_, ?_, ?_, ?_⟩
  · intro hb hlt
    unfold buyer_join
    rw [hb]
    simp [hlt]
  · intro hb hle
    unfold buyer_join
    rw [hb]
    simp [not_lt.mpr hle]
  · intro b hb hne
    unfold buyer_join
    rw [hb]
    simp [hne]
  · intro b hb r' h
    unfold buyer_join at h
    rw [hb] at h
    by_cases hbe : b = uid
    · simp [hbe] at h
      exact h.symm
    · simp [hbe] at h

/-- C10 witness: a first buyer with balance 50 against amount 100 is refused
with insufficient balance. -/
theorem c10_buyer_join_witness :
    buyer_join roomOpen "B" 1 ⟨50, 0⟩ = .refused .insufficientBalance :=
  (c10_buyer_join roomOpen "B" 1 ⟨50, 0⟩).1 (by decide) (by decide)

end EAAS

